import Mathlib

/-!
# Verification of the x402 payment-protocol repository

Shallow embedding of the protocol-relevant source files:
* `src/typescript/packages/x402/src/schemes/exact/evm/sign.ts`
  (`signAuthorization`, `createNonce`),
* `src/examples/typescript/facilitator/index.ts`
  (the `/verify`, `/settle`, `/supported` handlers and `sendEvmCashback`),
* the requirements generator of the `x402-express` middleware, whose
  implementation is not among the provided sources and is therefore
  modelled from the specification.

External library calls (viem, ethers, the `x402/facilitator` package) are
modelled as oracles passed in through explicit environment records;
exceptions become `Except` values.
-/

namespace X402

/-! ## Hex-string machinery

viem's `toHex` produces a lowercase `0x`-prefixed hex string; the source
decomposes signatures by JavaScript `String.prototype.slice` and
`parseInt(·, 16)`.  Strings are modelled through their character lists. -/

/-- Lowercase hexadecimal digit for `n < 16` (as produced by `toHex`). -/
def hexDigit (n : Nat) : Char :=
  if n < 10 then Char.ofNat (48 + n) else Char.ofNat (87 + n)

/-- The two hex characters encoding one byte `b < 256`. -/
def byteHexChars (b : Nat) : List Char :=
  [hexDigit (b / 16), hexDigit (b % 16)]

/-- Hex body (no `0x` prefix) of a byte sequence. -/
def hexBody : List Nat → List Char
  | [] => []
  | b :: bs => byteHexChars b ++ hexBody bs

/-- Prefix a character list with `0x`, as template strings in the source do. -/
def hex0x (l : List Char) : String :=
  String.mk ('0' :: 'x' :: l)

/-- viem `toHex` on a byte array: lowercase hex with a `0x` prefix. -/
def toHex (bs : List Nat) : String :=
  hex0x (hexBody bs)

/-- Numeric value of a hex character (`parseInt` digit semantics;
unrecognised characters contribute 0, a case never exercised). -/
def hexCharVal (c : Char) : Nat :=
  if 48 ≤ c.toNat ∧ c.toNat ≤ 57 then c.toNat - 48
  else if 97 ≤ c.toNat ∧ c.toNat ≤ 102 then c.toNat - 87
  else if 65 ≤ c.toNat ∧ c.toNat ≤ 70 then c.toNat - 55
  else 0

/-- `parseInt(s, 16)` on a character list of hex digits. -/
def parseIntHex (l : List Char) : Nat :=
  l.foldl (fun acc c => acc * 16 + hexCharVal c) 0

/-- JavaScript `s.slice(a, b)` (for `0 ≤ a ≤ b`), as a character list. -/
def jsSlice (s : String) (a b : Nat) : List Char :=
  (s.data.drop a).take (b - a)

theorem hexCharVal_hexDigit : ∀ n < 16, hexCharVal (hexDigit n) = n := by decide

theorem byteHexChars_cons (b : Nat) :
    byteHexChars b = hexDigit (b / 16) :: hexDigit (b % 16) :: [] := rfl

theorem hexBody_take : ∀ (bs : List Nat) (k : Nat),
    (hexBody bs).take (2 * k) = hexBody (bs.take k) := by
  intro bs
  induction bs with
  | nil => intro k; simp [hexBody]
  | cons b bs ih =>
    intro k
    cases k with
    | zero => simp [hexBody]
    | succ k =>
      have h2 : 2 * (k + 1) = (2 * k) + 1 + 1 := by ring
      simp [hexBody, byteHexChars, h2, List.take_succ_cons, ih]

theorem hexBody_drop : ∀ (bs : List Nat) (k : Nat),
    (hexBody bs).drop (2 * k) = hexBody (bs.drop k) := by
  intro bs
  induction bs with
  | nil => intro k; simp [hexBody]
  | cons b bs ih =>
    intro k
    cases k with
    | zero => simp
    | succ k =>
      have h2 : 2 * (k + 1) = (2 * k) + 1 + 1 := by ring
      simp [hexBody, byteHexChars, h2, List.drop_succ_cons, ih]

theorem parseIntHex_byteHexChars (b : Nat) (hb : b < 256) :
    parseIntHex (byteHexChars b) = b := by
  have hdiv : b / 16 < 16 := by omega
  have hmod : b % 16 < 16 := Nat.mod_lt _ (by omega)
  have h1 := hexCharVal_hexDigit (b / 16) hdiv
  have h2 := hexCharVal_hexDigit (b % 16) hmod
  simp only [byteHexChars, parseIntHex, List.foldl_cons, List.foldl_nil,
    Nat.zero_mul, Nat.zero_add, h1, h2]
  omega

/-! ## Data model

Mirrors `src/typescript/packages/x402/src/types` as used by the sources:
EIP-712 metadata, payment requirements, the exact-scheme EVM authorization,
and payment payloads. -/

/-- The `extra` metadata of a requirement: EIP-712 domain name and version
declared for the asset. -/
structure Eip712Meta where
  name : String
  version : String
deriving DecidableEq

/-- `PaymentRequirements` from `x402/types/verify`. -/
structure PaymentRequirements where
  scheme : String
  network : String
  maxAmountRequired : String
  asset : String
  payTo : String
  resource : String
  description : String
  mimeType : String
  maxTimeoutSeconds : Nat
  extra : Option Eip712Meta
deriving DecidableEq

/-- `ExactEvmPayloadAuthorization`: the EIP-3009 authorization record. -/
structure ExactEvmPayloadAuthorization where
  fromAddr : String
  toAddr : String
  value : String
  validAfter : Nat
  validBefore : Nat
  nonce : String
deriving DecidableEq

/-- The scheme-specific payload inside a `PaymentPayload`: either an EVM
signature+authorization or an SVM transaction blob. -/
inductive ExactPayload where
  | evm (signature : String) (authorization : ExactEvmPayloadAuthorization)
  | svm (transaction : String)
deriving DecidableEq

/-- `PaymentPayload` from `x402/types/verify`. -/
structure PaymentPayload where
  x402Version : Nat
  scheme : String
  network : String
  payload : ExactPayload
deriving DecidableEq

/-! ## `signAuthorization` and `createNonce`
(`src/typescript/packages/x402/src/schemes/exact/evm/sign.ts`) -/

/-- Modelled from the spec: `getNetworkId` ("chain identifier derived from
the network") lives in `x402/shared`, which is not among the provided
sources; the chain identifiers of the supported EVM networks are public
constants. -/
def getNetworkId (network : String) : Nat :=
  if network = "base-sepolia" then 84532
  else if network = "base" then 8453
  else if network = "avalanche-fuji" then 43113
  else if network = "avalanche" then 43114
  else 0

/-- viem's `getAddress`, an address-normalisation function of the external
viem library, modelled as the identity on address strings. -/
def getAddress (address : String) : String := address

/-- EIP-712 domain of the typed-data structure. -/
structure TypedDataDomain where
  name : String
  version : String
  chainId : Nat
  verifyingContract : String
deriving DecidableEq

/-- The complete typed-data object handed to `signTypedData`. -/
structure AuthorizationTypedData where
  domain : TypedDataDomain
  primaryType : String
  message : ExactEvmPayloadAuthorization
deriving DecidableEq

/-- The `data` object built by `signAuthorization` (sign.ts lines 36-57):
`name` and `version` are the local constants `"META Forwarder"` and `"1"`;
`chainId` comes from `getNetworkId(network)` and `verifyingContract` is the
requirement's asset address. -/
def buildAuthorizationData (auth : ExactEvmPayloadAuthorization)
    (req : PaymentRequirements) : AuthorizationTypedData :=
  { domain :=
      { name := "META Forwarder"
        version := "1"
        chainId := getNetworkId req.network
        verifyingContract := getAddress req.asset }
    primaryType := "TransferWithAuthorization"
    message :=
      { fromAddr := getAddress auth.fromAddr
        toAddr := getAddress auth.toAddr
        value := auth.value
        validAfter := auth.validAfter
        validBefore := auth.validBefore
        nonce := auth.nonce } }

/-- The signing identity: `SignerWallet | LocalAccount`.  `isSignerWallet`
and `isAccount` are the type guards from `x402/types/shared/evm`;
`hasSignTypedData` models the optional `signTypedData` member of a
`LocalAccount`; `signTypedData` is the identity's signing oracle, returning
the hex signature string. -/
structure WalletClient where
  isSignerWallet : Bool
  isAccount : Bool
  hasSignTypedData : Bool
  signTypedData : AuthorizationTypedData → String

/-- Result record of `signAuthorization`. -/
structure SignResult where
  signature : String
  v : Nat
  r : String
  s : String
deriving DecidableEq

/-- Signature decomposition shared by both branches of `signAuthorization`:
`r = '0x' + signature.slice(2, 66)`, `s = '0x' + signature.slice(66, 130)`,
`v = parseInt(signature.slice(130, 132), 16)` bumped by 27 when below 27. -/
def decomposeSignature (signature : String) : SignResult :=
  let r := hex0x (jsSlice signature 2 66)
  let s := hex0x (jsSlice signature 66 130)
  let vRaw := parseIntHex (jsSlice signature 130 132)
  let v := if vRaw < 27 then vRaw + 27 else vRaw
  { signature := signature, v := v, r := r, s := s }

/-- `signAuthorization` (sign.ts lines 28-85).  Both the signer-wallet and
the account branch sign the same typed data and decompose identically; any
other identity throws. -/
def signAuthorization (walletClient : WalletClient)
    (auth : ExactEvmPayloadAuthorization) (req : PaymentRequirements) :
    Except String SignResult :=
  let data := buildAuthorizationData auth req
  if walletClient.isSignerWallet then
    .ok (decomposeSignature (walletClient.signTypedData data))
  else if walletClient.isAccount && walletClient.hasSignTypedData then
    .ok (decomposeSignature (walletClient.signTypedData data))
  else
    .error "Invalid wallet client provided does not support signTypedData"

/-- The 32 bytes drawn from the cryptographically secure source by
`createNonce`: `getRandomValues` fills a 32-byte array from the byte stream
`csprng` of the environment's CSPRNG. -/
def nonceBytes (csprng : Nat → Nat) : List Nat :=
  (List.range 32).map (fun i => csprng i % 256)

/-- `createNonce` (sign.ts lines 92-101): hex-encode 32 CSPRNG bytes. -/
def createNonce (csprng : Nat → Nat) : String :=
  toHex (nonceBytes csprng)

/-- Decode a `0x`-prefixed hex string back into bytes (pairing the hex
characters); `none` when the prefix is missing or a digit count is odd. -/
def hexDecodeBody : List Char → Option (List Nat)
  | [] => some []
  | [_] => none
  | c1 :: c2 :: rest =>
    (hexDecodeBody rest).map (fun bs => (hexCharVal c1 * 16 + hexCharVal c2) :: bs)

/-- Decode a full `0x…` hex string into its byte sequence. -/
def hexDecode (s : String) : Option (List Nat) :=
  match s.data with
  | '0' :: 'x' :: body => hexDecodeBody body
  | _ => none

/-! ## The facilitator server (`src/examples/typescript/facilitator/index.ts`)

The express handlers are embedded as functions from a per-request
environment (the outcomes of the external calls the handler awaits:
schema parsing, `verify`, `settle`, the ethers ERC-20 calls) to an HTTP
result.  A thrown/rejected promise inside the `try` block is a
`.error`, which the `catch` turns into a 400 response. -/

/-- The supported networks lists from `x402/types` (not among the provided
sources); concrete member networks follow the repository's documentation
(base-sepolia for EVM, solana-devnet for SVM, plus their mainnets). -/
def SupportedEVMNetworks : List String :=
  ["base-sepolia", "base", "avalanche-fuji", "avalanche"]

/-- SVM counterpart of `SupportedEVMNetworks`. -/
def SupportedSVMNetworks : List String :=
  ["solana-devnet", "solana"]

/-- Verdict returned by `verify` and serialised as the `/verify` body. -/
structure VerifyResponse where
  isValid : Bool
  invalidReason : Option String
deriving DecidableEq

/-- `SettlementResult`: the value returned by `settle`. -/
structure SettlementResult where
  success : Bool
  transaction : String
  network : String
  payer : Option String
  errorReason : Option String
deriving DecidableEq

/-- An express response: either `res.json(body)` (status 200) or
`res.status(400).json({error})`. -/
inductive HttpResult (α : Type) where
  | ok (body : α)
  | badRequest (error : String)
deriving DecidableEq

/-- Outcomes of the ethers calls made by `sendEvmCashback`:
`token.decimals()`, `token.transfer(to, value)` (yielding the tx hash) and
`tx.wait()`. -/
structure CashbackEnv where
  decimalsResult : Except String Nat
  transferResult : String → String → Nat → Except String String
  waitResult : String → Except String Unit

/-- ethers `parseUnits(amount, decimals)` for an integral amount. -/
def parseUnits (amount : Nat) (decimals : Nat) : Nat :=
  amount * 10 ^ decimals

/-- `sendEvmCashback` (index.ts lines 68-87): a failed `decimals()` call is
caught and replaced by 18 (`.catch(() => 18)`); a failed `transfer` or
`wait` rejects and propagates to the caller. -/
def sendEvmCashback (env : CashbackEnv) (toAddr : String)
    (tokenAddress : String) (amount : Nat) : Except String String :=
  let decimals :=
    match env.decimalsResult with
    | .ok d => d
    | .error _ => 18
  let decimalAmount := parseUnits amount decimals
  match env.transferResult tokenAddress toAddr decimalAmount with
  | .error e => .error e
  | .ok txHash =>
    match env.waitResult txHash with
    | .error e => .error e
    | .ok _ => .ok txHash

/-- `payer` extraction in `/settle`: `"authorization" in payload.payload`
holds exactly for EVM payloads, whose authorization supplies `from`. -/
def payerOf : ExactPayload → Option String
  | .evm _ authorization => some authorization.fromAddr
  | .svm _ => none

/-- Body of a successful `/settle` response. -/
structure CashbackInfo where
  amount : Nat
  txHash : Option String
  percent : Nat
deriving DecidableEq

/-- The JSON object `res.json({success, settlement, cashback})`. -/
structure SettleResponseBody where
  success : Bool
  settlement : SettlementResult
  cashback : CashbackInfo
deriving DecidableEq

/-- Per-request environment of the `/settle` handler: the zod parse of the
request body, the outcome of `settle` (from `x402/facilitator`), the
cashback configuration read from the process environment, and the ethers
oracles.  `createSigner` is an external library constructor and is modelled
as total. -/
structure SettleEnv where
  parseResult : Except String (PaymentPayload × PaymentRequirements)
  settleResult : Except String SettlementResult
  cashbackPercent : Nat
  evmCashbackToken : String
  cashback : CashbackEnv

/-- The `/settle` handler (index.ts lines 116-173).  Every rejection inside
the `try` block — parse failure, unsupported network, `settle` failing, or
`sendEvmCashback` rejecting — reaches the `catch` and becomes a 400.
`cashbackAmount` is the static `1`. -/
def settleHandler (env : SettleEnv) : HttpResult SettleResponseBody :=
  match env.parseResult with
  | .error e => .badRequest e
  | .ok (paymentPayload, paymentRequirements) =>
    if SupportedEVMNetworks.contains paymentRequirements.network
        || SupportedSVMNetworks.contains paymentRequirements.network then
      match env.settleResult with
      | .error e => .badRequest e
      | .ok settlement =>
        if (payerOf paymentPayload.payload).isSome && decide ((0 : Nat) < 1) then
          if SupportedEVMNetworks.contains paymentRequirements.network then
            match sendEvmCashback env.cashback
                ((payerOf paymentPayload.payload).getD "")
                env.evmCashbackToken 1 with
            | .error e => .badRequest e
            | .ok txHash =>
              .ok { success := true, settlement := settlement,
                    cashback := { amount := 1,
                                  txHash := some txHash,
                                  percent := env.cashbackPercent } }
          else
            .ok { success := true, settlement := settlement,
                  cashback := { amount := 1,
                                txHash := none,
                                percent := env.cashbackPercent } }
        else
          .ok { success := true, settlement := settlement,
                cashback := { amount := 1,
                              txHash := none,
                              percent := env.cashbackPercent } }
    else .badRequest "Error: Invalid network"

/-- Per-request environment of the `/verify` handler: the zod parse of the
body and the `verify` verdict (a structured verdict per the library's
contract; `createConnectedClient`/`createSigner` are external constructors
modelled as total). -/
structure VerifyEnv where
  parseResult : Except String (PaymentPayload × PaymentRequirements)
  verdict : PaymentPayload → PaymentRequirements → VerifyResponse

/-- The `/verify` handler (index.ts lines 93-114): any rejection inside the
`try` block is answered with the generic 400 body `{error: "Invalid
request"}`; otherwise the `verify` verdict is returned as-is. -/
def verifyHandler (env : VerifyEnv) : HttpResult VerifyResponse :=
  match env.parseResult with
  | .error _ => .badRequest "Invalid request"
  | .ok (paymentPayload, paymentRequirements) =>
    if SupportedEVMNetworks.contains paymentRequirements.network then
      .ok (env.verdict paymentPayload paymentRequirements)
    else if SupportedSVMNetworks.contains paymentRequirements.network then
      .ok (env.verdict paymentPayload paymentRequirements)
    else .badRequest "Invalid request"

/-- `extra` of a supported-kind entry; the SVM entry always carries a
`feePayer` field, possibly undefined. -/
structure SupportedKindExtra where
  feePayer : Option String
deriving DecidableEq

/-- `SupportedPaymentKind` as serialised by `/supported`. -/
structure SupportedPaymentKind where
  x402Version : Nat
  scheme : String
  network : String
  extra : Option SupportedKindExtra
deriving DecidableEq

/-- Configuration seen by the `/supported` handler: which private keys are
set, and the signer produced by `createSigner("solana-devnet", …)`
(whether it passes `isSvmSignerWallet`, and its address). -/
structure SupportedEnv where
  evmPrivateKey : String
  svmPrivateKey : String
  svmSignerIsWallet : Bool
  svmSignerAddress : String

/-- The EVM entry pushed by `/supported`. -/
def evmSupportedKind : SupportedPaymentKind :=
  { x402Version := 1, scheme := "exact", network := "base-sepolia",
    extra := none }

/-- The SVM entry pushed by `/supported` for a given environment. -/
def svmSupportedKind (env : SupportedEnv) : SupportedPaymentKind :=
  { x402Version := 1, scheme := "exact", network := "solana-devnet",
    extra := some { feePayer :=
      if env.svmSignerIsWallet then some env.svmSignerAddress else none } }

/-- The `/supported` handler (index.ts lines 175-198): push the
base-sepolia kind when an EVM key is configured, then the solana-devnet
kind when an SVM key is configured. -/
def supportedHandler (env : SupportedEnv) : List SupportedPaymentKind :=
  (if env.evmPrivateKey ≠ "" then [evmSupportedKind] else []) ++
    (if env.svmPrivateKey ≠ "" then [svmSupportedKind env] else [])

/-! ## RequirementsGenerator (spec §4.1)

The price-expansion code lives in the `x402-express` middleware internals,
which are not among the provided sources — only its callers
(`src/examples/typescript/servers/express-multi-asset/index.ts`) and the
repository documentation are.  The generator is therefore modelled from
the specification. -/

/-- `AssetDescriptor` (spec §3): contract address, decimal precision, and
the EIP-712 name/version used for typed-data domain separation. -/
structure AssetDescriptor where
  address : String
  decimals : Nat
  eip712 : Eip712Meta
deriving DecidableEq

/-- A currency-denominated display value as fixed-point decimal arithmetic
(spec §9): `mantissa / 10 ^ scale` dollars, e.g. `$0.01 = ⟨1, 2⟩`. -/
structure MoneyAmount where
  mantissa : Nat
  scale : Nat
deriving DecidableEq

/-- `PriceOption` (spec §3): a currency-denominated string or an explicit
(atomic amount, asset descriptor) pair. -/
inductive PriceOption where
  | money (usd : MoneyAmount)
  | explicitAmt (amount : String) (asset : AssetDescriptor)
deriving DecidableEq

/-- Modelled from the spec: the configured reference stable asset of a
network ("a currency-string option resolves to the configured reference
stable asset for that network"); USDC on base-sepolia per the
documentation's 402 example, with its analogue on base. -/
def referenceStableAsset (network : String) : AssetDescriptor :=
  if network = "base-sepolia" then
    { address := "0x036CbD53842c5426634e7929541eC2318f3dCF7e",
      decimals := 6, eip712 := { name := "USDC", version := "2" } }
  else
    { address := "0x833589fCD6eDb6E08f4c7C32D4f71b54bdA02913",
      decimals := 6, eip712 := { name := "USDC", version := "2" } }

/-- Atomic amount of a currency-denominated option: truncate
`mantissa / 10^scale` dollars to the reference asset's atomic units
("rounding: truncate to atomic units, never round up"). -/
def resolveMoneyAmount (usd : MoneyAmount) (decimals : Nat) : Nat :=
  usd.mantissa * 10 ^ decimals / 10 ^ usd.scale

/-- Shared per-route configuration of the generator (spec §4.1). -/
structure RequirementsConfig where
  description : String
  mimeType : String
  maxTimeoutSeconds : Nat
deriving DecidableEq

/-- Asset address offered for one price option. -/
def optionAssetAddress (network : String) : PriceOption → String
  | .money _ => (referenceStableAsset network).address
  | .explicitAmt _ asset => asset.address

/-- Atomic amount (string-encoded, spec §3) offered for one price option. -/
def optionAmount (network : String) : PriceOption → String
  | .money usd =>
    toString (resolveMoneyAmount usd (referenceStableAsset network).decimals)
  | .explicitAmt amount _ => amount

/-- EIP-712 metadata placed in `extra` for one price option. -/
def optionExtra (network : String) : PriceOption → Eip712Meta
  | .money _ => (referenceStableAsset network).eip712
  | .explicitAmt _ asset => asset.eip712

/-- Modelled from the spec: expansion of one `PriceOption` into a
`PaymentRequirements` with the shared scheme/network/payee/resource and the
option's asset and amount (spec §4.1, §3 invariant). -/
def requirementOfOption (payTo network resource : String)
    (cfg : RequirementsConfig) (opt : PriceOption) : PaymentRequirements :=
  { scheme := "exact"
    network := network
    maxAmountRequired := optionAmount network opt
    asset := optionAssetAddress network opt
    payTo := payTo
    resource := resource
    description := cfg.description
    mimeType := cfg.mimeType
    maxTimeoutSeconds := cfg.maxTimeoutSeconds
    extra := some (optionExtra network opt) }

/-- A non-negative integer literal: non-empty, digits only (spec §4.1's
validity requirement on explicit amounts). -/
def isIntegerLiteral (s : String) : Bool :=
  !s.data.isEmpty && s.data.all Char.isDigit

/-- Validity of one price option for generation. -/
def validPriceOption : PriceOption → Bool
  | .money _ => true
  | .explicitAmt amount _ => isIntegerLiteral amount

/-- Modelled from the spec: the RequirementsGenerator (spec §4.1).  Fails
with a `ConfigurationError` on an empty specification or an invalid
explicit amount; otherwise maps each option, in order, to its
requirement. -/
def generateRequirements (payTo network resource : String)
    (cfg : RequirementsConfig) (priceSpec : List PriceOption) :
    Except String (List PaymentRequirements) :=
  if priceSpec.isEmpty then
    .error "ConfigurationError: empty price specification"
  else if priceSpec.all validPriceOption then
    .ok (priceSpec.map (requirementOfOption payTo network resource cfg))
  else
    .error "ConfigurationError: invalid explicit amount"

/-! ## Theorems about `signAuthorization` -/

theorem toHex_data (bs : List Nat) :
    (toHex bs).data = '0' :: 'x' :: hexBody bs := rfl

theorem jsSlice_toHex_r (bs : List Nat) :
    jsSlice (toHex bs) 2 66 = hexBody (bs.take 32) := by
  have h : jsSlice (toHex bs) 2 66 = (hexBody bs).take (2 * 32) := rfl
  rw [h, hexBody_take]

theorem jsSlice_toHex_s (bs : List Nat) :
    jsSlice (toHex bs) 66 130 = hexBody ((bs.drop 32).take 32) := by
  have h : jsSlice (toHex bs) 66 130 =
      ((hexBody bs).drop (2 * 32)).take (2 * 32) := rfl
  rw [h, hexBody_drop, hexBody_take]

theorem drop_64_of_length_65 (bs : List Nat) (hlen : bs.length = 65) :
    bs.drop 64 = [bs.getD 64 0] := by
  have h64 : 64 < bs.length := by omega
  have h1 : bs.drop 64 = bs[64] :: bs.drop 65 := List.drop_eq_getElem_cons h64
  have h2 : bs.drop 65 = [] := by rw [← hlen]; exact List.drop_length bs
  rw [h1, h2, List.getD_eq_getElem bs 0 h64]

theorem jsSlice_toHex_v (bs : List Nat) (hlen : bs.length = 65) :
    jsSlice (toHex bs) 130 132 = byteHexChars (bs.getD 64 0) := by
  have h : jsSlice (toHex bs) 130 132 =
      ((hexBody bs).drop (2 * 64)).take 2 := rfl
  rw [h, hexBody_drop, drop_64_of_length_65 bs hlen]
  rfl

theorem getD_64_lt_256 (bs : List Nat) (hlen : bs.length = 65)
    (hbytes : ∀ b ∈ bs, b < 256) : bs.getD 64 0 < 256 := by
  have h64 : 64 < bs.length := by omega
  rw [List.getD_eq_getElem bs 0 h64]
  exact hbytes _ (List.getElem_mem h64)

theorem decomposeSignature_toHex (bs : List Nat) (hlen : bs.length = 65)
    (hbytes : ∀ b ∈ bs, b < 256) :
    decomposeSignature (toHex bs) =
      { signature := toHex bs
        r := toHex (bs.take 32)
        s := toHex ((bs.drop 32).take 32)
        v := if bs.getD 64 0 < 27 then bs.getD 64 0 + 27 else bs.getD 64 0 } := by
  unfold decomposeSignature
  rw [jsSlice_toHex_r, jsSlice_toHex_s, jsSlice_toHex_v bs hlen,
    parseIntHex_byteHexChars _ (getD_64_lt_256 bs hlen hbytes)]
  rfl

/-- **C3.**  Whenever the signing identity produces a 65-byte signature
(hex-encoded bytes `bs`), `signAuthorization` succeeds and returns `r` =
the first 32 bytes, `s` = the next 32 bytes, and `v` = the last byte
normalised to ≥ 27 (unchanged when already ≥ 27, increased by 27 when
below), alongside the unmodified full signature. -/
theorem signAuthorization_decomposition (w : WalletClient)
    (auth : ExactEvmPayloadAuthorization) (req : PaymentRequirements)
    (bs : List Nat) (hlen : bs.length = 65) (hbytes : ∀ b ∈ bs, b < 256)
    (hw : w.isSignerWallet = true ∨ (w.isAccount = true ∧ w.hasSignTypedData = true))
    (hsig : w.signTypedData (buildAuthorizationData auth req) = toHex bs) :
    signAuthorization w auth req = .ok
      { signature := toHex bs
        r := toHex (bs.take 32)
        s := toHex ((bs.drop 32).take 32)
        v := if bs.getD 64 0 < 27 then bs.getD 64 0 + 27 else bs.getD 64 0 } := by
  have hdec := decomposeSignature_toHex bs hlen hbytes
  unfold signAuthorization
  rcases h1 : w.isSignerWallet with _ | _ <;>
    rcases h2 : w.isAccount with _ | _ <;>
    rcases h3 : w.hasSignTypedData with _ | _ <;>
    simp_all

/-- **C7.**  `signAuthorization` fails with the unsupported-signer error
exactly when the identity is neither a signer wallet nor an account with a
`signTypedData` member; every identity that can sign typed data never
receives this error (the result is a signature). -/
theorem signAuthorization_unsupported_signer (w : WalletClient)
    (auth : ExactEvmPayloadAuthorization) (req : PaymentRequirements) :
    (signAuthorization w auth req =
        .error "Invalid wallet client provided does not support signTypedData"
      ↔ w.isSignerWallet = false ∧
          (w.isAccount = false ∨ w.hasSignTypedData = false)) ∧
    (w.isSignerWallet = true ∨ (w.isAccount = true ∧ w.hasSignTypedData = true) →
      signAuthorization w auth req =
        .ok (decomposeSignature
          (w.signTypedData (buildAuthorizationData auth req)))) := by
  unfold signAuthorization
  rcases h1 : w.isSignerWallet with _ | _ <;>
    rcases h2 : w.isAccount with _ | _ <;>
    rcases h3 : w.hasSignTypedData with _ | _ <;>
    simp [h1, h2, h3]

/-! ## Theorems about the typed-data domain (C2) -/

/-- Concrete requirements whose `extra` declares domain name `"USDC"`,
version `"2"` (the reference stable asset of the documentation). -/
def c2Requirements : PaymentRequirements :=
  { scheme := "exact"
    network := "base-sepolia"
    maxAmountRequired := "10000"
    asset := "0x036CbD53842c5426634e7929541eC2318f3dCF7e"
    payTo := "0x209693Bc6afc0C5328bA36FaF03C514EF312287C"
    resource := "https://api.example.com/premium-data"
    description := ""
    mimeType := ""
    maxTimeoutSeconds := 60
    extra := some { name := "USDC", version := "2" } }

/-- A concrete authorization record. -/
def c2Authorization : ExactEvmPayloadAuthorization :=
  { fromAddr := "0xPayer"
    toAddr := "0x209693Bc6afc0C5328bA36FaF03C514EF312287C"
    value := "10000"
    validAfter := 0
    validBefore := 1700000000
    nonce := "0x0101010101010101010101010101010101010101010101010101010101010101" }

/-- **C2 counterexample.**  For requirements declaring `extra` name
`"USDC"` / version `"2"`, the typed-data domain built by
`signAuthorization` carries the hard-coded name `"META Forwarder"` and
version `"1"`, not the asset's declared name and version. -/
theorem sign_domain_ignores_declared_extra :
    c2Requirements.extra = some { name := "USDC", version := "2" } ∧
    (buildAuthorizationData c2Authorization c2Requirements).domain.name =
      "META Forwarder" ∧
    (buildAuthorizationData c2Authorization c2Requirements).domain.name ≠
      "USDC" ∧
    (buildAuthorizationData c2Authorization c2Requirements).domain.version =
      "1" ∧
    (buildAuthorizationData c2Authorization c2Requirements).domain.version ≠
      "2" := by
  refine ⟨rfl, rfl, ?_, rfl, ?_⟩ <;> decide

/-- **C2 (amended).**  Every successful `signAuthorization` signs the typed
data built from the authorization and requirements, whose EIP-712 domain
uses the fixed name `"META Forwarder"` and fixed version `"1"` (regardless
of the requirements' `extra` metadata), the chain identifier derived from
the requirements' network, and the asset address as verifying contract. -/
theorem signAuthorization_domain_fixed (w : WalletClient)
    (auth : ExactEvmPayloadAuthorization) (req : PaymentRequirements)
    (res : SignResult) (h : signAuthorization w auth req = .ok res) :
    res = decomposeSignature
        (w.signTypedData (buildAuthorizationData auth req)) ∧
    (buildAuthorizationData auth req).domain =
      { name := "META Forwarder", version := "1",
        chainId := getNetworkId req.network,
        verifyingContract := getAddress req.asset } := by
  refine ⟨?_, rfl⟩
  unfold signAuthorization at h
  rcases h1 : w.isSignerWallet with _ | _ <;> rw [h1] at h
  · rcases h2 : (w.isAccount && w.hasSignTypedData) with _ | _ <;>
      rw [h2] at h <;> simp at h
    exact h.symm
  · simp at h
    exact h.symm

/-- A signer wallet whose oracle returns a fixed 65-byte signature. -/
def c3Bytes : List Nat := List.replicate 32 171 ++ List.replicate 32 205 ++ [1]

/-- Wallet used in the C3 witness. -/
def c3Wallet : WalletClient :=
  { isSignerWallet := true, isAccount := false, hasSignTypedData := false,
    signTypedData := fun _ => toHex c3Bytes }

/-- Witness for C3: a concrete 65-byte signature whose decomposition is
computed (last byte 1 < 27, so v = 28). -/
theorem signAuthorization_decomposition_witness :
    c3Bytes.length = 65 ∧ (∀ b ∈ c3Bytes, b < 256) ∧
    signAuthorization c3Wallet c2Authorization c2Requirements = .ok
      { signature := toHex c3Bytes
        r := toHex (c3Bytes.take 32)
        s := toHex ((c3Bytes.drop 32).take 32)
        v := 28 } := by
  refine ⟨rfl, by decide, ?_⟩
  have h := signAuthorization_decomposition c3Wallet c2Authorization
    c2Requirements c3Bytes rfl (by decide) (Or.inl rfl) rfl
  rw [h]
  rfl

/-- Wallet used in the C2 witness. -/
def c2Wallet : WalletClient :=
  { isSignerWallet := true, isAccount := false, hasSignTypedData := false,
    signTypedData := fun _ => "0xdead" }

/-- Witness for the amended C2: at a concrete wallet and requirements, the
signed typed data's domain is the hard-coded name/version with the
base-sepolia chain id and the asset address. -/
theorem signAuthorization_domain_fixed_witness :
    signAuthorization c2Wallet c2Authorization c2Requirements =
      .ok (decomposeSignature "0xdead") ∧
    (buildAuthorizationData c2Authorization c2Requirements).domain =
      { name := "META Forwarder", version := "1", chainId := 84532,
        verifyingContract := "0x036CbD53842c5426634e7929541eC2318f3dCF7e" } := by
  refine ⟨rfl, ?_⟩
  have h := (signAuthorization_domain_fixed c2Wallet c2Authorization
    c2Requirements (decomposeSignature "0xdead") rfl).2
  rw [h]
  rfl

/-- An identity that is neither a signer wallet nor an account. -/
def c7Wallet : WalletClient :=
  { isSignerWallet := false, isAccount := false, hasSignTypedData := false,
    signTypedData := fun _ => "" }

/-- Witness for C7: the incapable identity receives the
unsupported-signer error. -/
theorem signAuthorization_unsupported_signer_witness :
    signAuthorization c7Wallet c2Authorization c2Requirements =
      .error "Invalid wallet client provided does not support signTypedData" :=
  (signAuthorization_unsupported_signer c7Wallet c2Authorization
    c2Requirements).1.mpr ⟨rfl, Or.inl rfl⟩

/-! ## Theorems about the facilitator handlers -/

/-- **C9.**  Every non-400 `/settle` response carries the literal
`success: true`, whatever the success flag inside the settlement. -/
theorem settle_response_success_literal (env : SettleEnv)
    (body : SettleResponseBody) (h : settleHandler env = .ok body) :
    body.success = true := by
  unfold settleHandler at h
  repeat' split at h
  all_goals
    first
    | (cases HttpResult.ok.inj h; rfl)
    | simp at h

/-- A settlement whose own success flag is `false`. -/
def c9Settlement : SettlementResult :=
  { success := false, transaction := "", network := "solana-devnet",
    payer := none, errorReason := some "insufficient funds" }

/-- A `/settle` environment with an SVM payload (no cashback attempted)
whose settlement result is unsuccessful. -/
def c9Env : SettleEnv :=
  { parseResult := .ok
      ( { x402Version := 1, scheme := "exact", network := "solana-devnet",
          payload := .svm "tx" },
        { scheme := "exact", network := "solana-devnet",
          maxAmountRequired := "10000", asset := "So11111111111111111111111111111111111111112",
          payTo := "Payee", resource := "https://api.example.com/premium-data",
          description := "", mimeType := "", maxTimeoutSeconds := 60,
          extra := none } )
    settleResult := .ok c9Settlement
    cashbackPercent := 2
    evmCashbackToken := ""
    cashback :=
      { decimalsResult := .ok 6
        transferResult := fun _ _ _ => .ok "0xhash"
        waitResult := fun _ => .ok () } }

/-- Witness for C9: the handler answers `success: true` even though the
settlement's own flag is `false`. -/
theorem settle_response_success_literal_witness :
    settleHandler c9Env = .ok
      { success := true, settlement := c9Settlement,
        cashback := { amount := 1, txHash := none, percent := 2 } } ∧
    ({ success := true, settlement := c9Settlement,
       cashback := { amount := 1, txHash := none, percent := 2 } }
        : SettleResponseBody).success = true :=
  ⟨rfl, settle_response_success_literal c9Env _ rfl⟩

/-- **C10.**  When the reward token's `decimals()` query fails,
`sendEvmCashback` does not fail at that step: it converts the amount with
the default 18 decimals and still attempts the transfer, whose outcome
(with the subsequent `wait`) becomes the result. -/
theorem sendEvmCashback_decimals_default (env : CashbackEnv)
    (toAddr tokenAddress : String) (amount : Nat) (err : String)
    (h : env.decimalsResult = .error err) :
    sendEvmCashback env toAddr tokenAddress amount =
      match env.transferResult tokenAddress toAddr (parseUnits amount 18) with
      | .error e => .error e
      | .ok txHash =>
        match env.waitResult txHash with
        | .error e => .error e
        | .ok _ => .ok txHash := by
  unfold sendEvmCashback
  rw [h]

/-- A cashback environment whose `decimals()` call fails and whose
transfer succeeds. -/
def c10Env : CashbackEnv :=
  { decimalsResult := .error "call revert exception"
    transferResult := fun _ _ v =>
      if v = parseUnits 1 18 then .ok "0xcashbacktx" else .error "wrong amount"
    waitResult := fun _ => .ok () }

/-- Witness for C10: with a failing `decimals()` the transfer is attempted
at `1 * 10^18` atomic units and its hash is returned. -/
theorem sendEvmCashback_decimals_default_witness :
    c10Env.decimalsResult = .error "call revert exception" ∧
    sendEvmCashback c10Env "0xPayer" "0xToken" 1 = .ok "0xcashbacktx" := by
  refine ⟨rfl, ?_⟩
  have h := sendEvmCashback_decimals_default c10Env "0xPayer" "0xToken" 1
    "call revert exception" rfl
  rw [h]
  rfl

/-- Authorization of the C1 scenario. -/
def c1Authorization : ExactEvmPayloadAuthorization :=
  { fromAddr := "0xPayer"
    toAddr := "0x209693Bc6afc0C5328bA36FaF03C514EF312287C"
    value := "10000"
    validAfter := 0
    validBefore := 1700000000
    nonce := "0x0202020202020202020202020202020202020202020202020202020202020202" }

/-- Payment payload of the C1 scenario (EVM, so a payer is present). -/
def c1Payment : PaymentPayload :=
  { x402Version := 1, scheme := "exact", network := "base-sepolia",
    payload := .evm "0xsig" c1Authorization }

/-- Requirements of the C1 scenario (base-sepolia, an EVM network). -/
def c1Requirements : PaymentRequirements :=
  { scheme := "exact", network := "base-sepolia",
    maxAmountRequired := "10000",
    asset := "0x036CbD53842c5426634e7929541eC2318f3dCF7e",
    payTo := "0x209693Bc6afc0C5328bA36FaF03C514EF312287C",
    resource := "https://api.example.com/premium-data",
    description := "", mimeType := "", maxTimeoutSeconds := 60,
    extra := some { name := "USDC", version := "2" } }

/-- A settlement that succeeded on-chain. -/
def c1Settlement : SettlementResult :=
  { success := true, transaction := "0xsettletx", network := "base-sepolia",
    payer := some "0xPayer", errorReason := none }

/-- A `/settle` environment in which settlement succeeds but the cashback
rebate transfer throws. -/
def c1Env : SettleEnv :=
  { parseResult := .ok (c1Payment, c1Requirements)
    settleResult := .ok c1Settlement
    cashbackPercent := 2
    evmCashbackToken := "0xToken"
    cashback :=
      { decimalsResult := .ok 18
        transferResult := fun _ _ _ => .error "Error: rebate transfer reverted"
        waitResult := fun _ => .ok () } }

/-- **C1 counterexample.**  With a successfully parsed request, a
settlement that succeeded (`success = true`), and a cashback transfer that
throws, the `/settle` handler answers 400 with the error string — not a
success response with `cashback.txHash = null`: the cashback failure IS
surfaced as a payment-failure (400) response. -/
theorem settle_cashback_failure_counterexample :
    c1Env.settleResult = .ok c1Settlement ∧
    c1Settlement.success = true ∧
    c1Env.cashback.transferResult "0xToken" "0xPayer" (parseUnits 1 18) =
      .error "Error: rebate transfer reverted" ∧
    settleHandler c1Env = .badRequest "Error: rebate transfer reverted" :=
  ⟨rfl, rfl, rfl, rfl⟩

/-- **C1 (amended).**  If settlement of a parsed payload succeeds but the
subsequent cashback dispatch fails (the rebate transfer or its confirmation
throws), the POST `/settle` response is a 400 error response carrying the
cashback error; the settlement is not reported as successful in that case.
(`cashback.txHash = null` appears only when cashback is skipped: no payer
in the payload or a non-EVM network.) -/
theorem settle_cashback_failure_yields_400 (env : SettleEnv)
    (payload : PaymentPayload) (req : PaymentRequirements)
    (settlement : SettlementResult) (e : String)
    (hparse : env.parseResult = .ok (payload, req))
    (hevm : SupportedEVMNetworks.contains req.network = true)
    (hsettle : env.settleResult = .ok settlement)
    (hpayer : (payerOf payload.payload).isSome = true)
    (hcb : sendEvmCashback env.cashback ((payerOf payload.payload).getD "")
        env.evmCashbackToken 1 = .error e) :
    settleHandler env = .badRequest e := by
  unfold settleHandler
  rw [hparse]
  have hm : req.network ∈ SupportedEVMNetworks := by simpa using hevm
  simp [hm, hsettle, hpayer, hcb]

/-- Witness for the amended C1 at the concrete C1 scenario. -/
theorem settle_cashback_failure_yields_400_witness :
    c1Env.parseResult = .ok (c1Payment, c1Requirements) ∧
    SupportedEVMNetworks.contains c1Requirements.network = true ∧
    c1Env.settleResult = .ok c1Settlement ∧
    (payerOf c1Payment.payload).isSome = true ∧
    sendEvmCashback c1Env.cashback ((payerOf c1Payment.payload).getD "")
      c1Env.evmCashbackToken 1 = .error "Error: rebate transfer reverted" ∧
    settleHandler c1Env = .badRequest "Error: rebate transfer reverted" :=
  ⟨rfl, rfl, rfl, rfl, rfl,
    settle_cashback_failure_yields_400 c1Env c1Payment c1Requirements
      c1Settlement "Error: rebate transfer reverted" rfl rfl rfl rfl rfl⟩

/-- **C5.**  The `/verify` handler answers 400 with the generic body when
the request fails schema parsing or names a network that is neither a
supported EVM nor a supported SVM network; in every other case the
response body is exactly the verifier's verdict for the parsed payload and
requirements. -/
theorem verify_handler_spec (env : VerifyEnv) :
    verifyHandler env =
      match env.parseResult with
      | .error _ => .badRequest "Invalid request"
      | .ok (payload, reqs) =>
        if SupportedEVMNetworks.contains reqs.network
            || SupportedSVMNetworks.contains reqs.network then
          .ok (env.verdict payload reqs)
        else .badRequest "Invalid request" := by
  unfold verifyHandler
  rcases env.parseResult with e | ⟨payload, reqs⟩
  · rfl
  · by_cases h1 : reqs.network ∈ SupportedEVMNetworks <;>
      by_cases h2 : reqs.network ∈ SupportedSVMNetworks <;>
      simp [h1, h2]

/-- **C6.**  `/supported` lists the base-sepolia exact kind iff an EVM key
is configured and the solana-devnet exact kind (whose `extra` carries the
`feePayer` field) iff an SVM key is configured, and nothing else. -/
theorem supported_kinds_characterization (env : SupportedEnv) :
    (evmSupportedKind ∈ supportedHandler env ↔ env.evmPrivateKey ≠ "") ∧
    (svmSupportedKind env ∈ supportedHandler env ↔ env.svmPrivateKey ≠ "") ∧
    (svmSupportedKind env).extra =
      some ⟨if env.svmSignerIsWallet then some env.svmSignerAddress else none⟩ ∧
    (∀ k ∈ supportedHandler env,
      k = evmSupportedKind ∨ k = svmSupportedKind env) := by
  unfold supportedHandler
  by_cases h1 : env.evmPrivateKey = "" <;> by_cases h2 : env.svmPrivateKey = "" <;>
    simp [h1, h2, evmSupportedKind, svmSupportedKind]

/-! ## Theorems about `createNonce` (C8) -/

theorem hexDecodeBody_hexBody (bs : List Nat) (hbytes : ∀ b ∈ bs, b < 256) :
    hexDecodeBody (hexBody bs) = some bs := by
  induction bs with
  | nil => rfl
  | cons b bs ih =>
    have hb : b < 256 := hbytes b (by simp)
    have ih2 := ih (fun x hx => hbytes x (by simp [hx]))
    have h1 := hexCharVal_hexDigit (b / 16) (by omega)
    have h2 := hexCharVal_hexDigit (b % 16) (Nat.mod_lt _ (by omega))
    simp only [hexBody, byteHexChars, List.cons_append, List.nil_append,
      hexDecodeBody, ih2, Option.map_some, h1, h2]
    have : b / 16 * 16 + b % 16 = b := by omega
    rw [this]
    simp [ih2]

/-- **C8.**  `createNonce` returns a hex string encoding exactly 32 bytes,
each drawn from the cryptographically secure random stream (`getRandomValues`
on the environment's CSPRNG, modelled as the byte oracle `csprng`): the
nonce decodes back to precisely those 32 bytes, and it is a function of the
first 32 CSPRNG bytes alone — no counter or timestamp enters. -/
theorem createNonce_spec (f g : Nat → Nat) (h : ∀ i < 32, f i = g i) :
    createNonce f = createNonce g ∧
    hexDecode (createNonce f) = some (nonceBytes f) ∧
    (nonceBytes f).length = 32 ∧
    (∀ b ∈ nonceBytes f, b < 256) := by
  have hlt : ∀ b ∈ nonceBytes f, b < 256 := by
    intro b hb
    simp only [nonceBytes, List.mem_map, List.mem_range] at hb
    obtain ⟨i, _, rfl⟩ := hb
    exact Nat.mod_lt _ (by omega)
  refine ⟨?_, ?_, by simp [nonceBytes], hlt⟩
  · have : nonceBytes f = nonceBytes g := by
      apply List.map_congr_left
      intro i hi
      rw [h i (List.mem_range.mp hi)]
    simp [createNonce, this]
  · show hexDecode (toHex (nonceBytes f)) = some (nonceBytes f)
    have : hexDecode (toHex (nonceBytes f)) =
        hexDecodeBody (hexBody (nonceBytes f)) := rfl
    rw [this, hexDecodeBody_hexBody _ hlt]

/-- Witness for C8 at the constant-zero CSPRNG stream. -/
theorem createNonce_spec_witness :
    createNonce (fun _ => 0) = createNonce (fun _ => 0) ∧
    hexDecode (createNonce (fun _ => 0)) = some (nonceBytes (fun _ => 0)) ∧
    (nonceBytes (fun _ => 0)).length = 32 ∧
    (∀ b ∈ nonceBytes (fun _ => 0), b < 256) :=
  createNonce_spec (fun _ => 0) (fun _ => 0) (fun _ _ => rfl)

/-! ## Theorems about the RequirementsGenerator (C4) -/

/-- **C4.**  Whenever generation succeeds, the price specification was
non-empty and the generator returns exactly one requirement per price
option, in input order (the i-th requirement is the expansion of the i-th
option, carrying that option's asset and amount); all requirements share
the scheme, network, payee, resource and the remaining common
configuration. -/
theorem generateRequirements_shape (payTo network resource : String)
    (cfg : RequirementsConfig) (priceSpec : List PriceOption)
    (reqs : List PaymentRequirements)
    (h : generateRequirements payTo network resource cfg priceSpec = .ok reqs) :
    reqs.length = priceSpec.length ∧
    1 ≤ priceSpec.length ∧
    (∀ r ∈ reqs, r.scheme = "exact" ∧ r.network = network ∧ r.payTo = payTo ∧
      r.resource = resource ∧ r.description = cfg.description ∧
      r.mimeType = cfg.mimeType ∧ r.maxTimeoutSeconds = cfg.maxTimeoutSeconds) ∧
    (∀ i, (hi : i < priceSpec.length) → (hr : i < reqs.length) →
      reqs.get ⟨i, hr⟩ =
        requirementOfOption payTo network resource cfg (priceSpec.get ⟨i, hi⟩)) := by
  unfold generateRequirements at h
  split at h
  · exact absurd h (by simp)
  case isFalse hne =>
    split at h
    · cases Except.ok.inj h
      refine ⟨List.length_map _ _, ?_, ?_, ?_⟩
      · have : priceSpec ≠ [] := by
          intro hnil
          rw [hnil] at hne
          exact hne rfl
        have := List.length_pos.mpr this
        omega
      · intro r hr
        rcases List.mem_map.mp hr with ⟨opt, _, rfl⟩
        exact ⟨rfl, rfl, rfl, rfl, rfl, rfl, rfl⟩
      · intro i hi hr
        simp [List.get_eq_getElem, List.getElem_map]
    · exact absurd h (by simp)

/-- The price specification of the documentation's multi-stablecoin
example: `["$0.01", {amount: "10000", asset: CustomStable}]`. -/
def c4PriceSpec : List PriceOption :=
  [ .money { mantissa := 1, scale := 2 },
    .explicitAmt "10000"
      { address := "0x1234567890abcdef1234567890abcdef12345678",
        decimals := 6,
        eip712 := { name := "CustomStable", version := "1" } } ]

/-- Shared route configuration of the C4 witness. -/
def c4Cfg : RequirementsConfig :=
  { description := "Access paid content with multiple stablecoin options",
    mimeType := "", maxTimeoutSeconds := 60 }

/-- The requirements produced for `c4PriceSpec`. -/
def c4Reqs : List PaymentRequirements :=
  c4PriceSpec.map (requirementOfOption "0x209693Bc6afc0C5328bA36FaF03C514EF312287C"
    "base-sepolia" "https://example.com/stablecoins" c4Cfg)

/-- Witness for C4 at the two-option specification. -/
theorem generateRequirements_shape_witness :
    generateRequirements "0x209693Bc6afc0C5328bA36FaF03C514EF312287C"
      "base-sepolia" "https://example.com/stablecoins" c4Cfg c4PriceSpec =
      .ok c4Reqs ∧
    (c4Reqs.length = c4PriceSpec.length ∧
     1 ≤ c4PriceSpec.length ∧
     (∀ r ∈ c4Reqs, r.scheme = "exact" ∧ r.network = "base-sepolia" ∧
       r.payTo = "0x209693Bc6afc0C5328bA36FaF03C514EF312287C" ∧
       r.resource = "https://example.com/stablecoins" ∧
       r.description = c4Cfg.description ∧ r.mimeType = c4Cfg.mimeType ∧
       r.maxTimeoutSeconds = c4Cfg.maxTimeoutSeconds) ∧
     (∀ i, (hi : i < c4PriceSpec.length) → (hr : i < c4Reqs.length) →
       c4Reqs.get ⟨i, hr⟩ =
         requirementOfOption "0x209693Bc6afc0C5328bA36FaF03C514EF312287C"
           "base-sepolia" "https://example.com/stablecoins" c4Cfg
           (c4PriceSpec.get ⟨i, hi⟩))) :=
  ⟨rfl, generateRequirements_shape _ _ _ c4Cfg c4PriceSpec c4Reqs rfl⟩

end X402
